import Mathlib

set_option maxRecDepth 100000

/-!
Verification of the platform content-adaptation and validation policy of the
social-agent repository.  Python strings are modelled as lists of unicode
characters (`PyStr`), so that Python `len` is `List.length` and slicing is
`List.take`/`List.drop`.  Machine text is ASCII/unicode code points; Python's
regex class `\w` is modelled over ASCII word characters, which covers every
string the repository manipulates.
-/

namespace SocialAgent

/-- Python strings as lists of characters: `len` is `List.length`. -/
abbrev PyStr := List Char

/-- ASCII word character, modelling Python regex `\w` for the ASCII range. -/
def isWordChar (c : Char) : Bool :=
  c.isAlpha || c.isDigit || c = '_'

/-- Whitespace characters recognised by Python `str.split()` (ASCII range). -/
def isWsChar (c : Char) : Bool :=
  c = ' ' || c = '\t' || c = '\n' || c = '\r'

/-- Python `s.startswith('#')`. -/
def startsWithHash (s : PyStr) : Bool :=
  match s with
  | '#' :: _ => true
  | _ => false

/-- Python slice `s[:n]` for a possibly negative bound `n`:
`s[:n]` keeps the first `n` characters when `n` is non-negative and drops the
last `-n` characters otherwise. -/
def pySliceTo (s : PyStr) (n : Int) : PyStr :=
  if 0 ≤ n then s.take n.toNat else s.take (s.length - n.natAbs)

/-- The three-character ellipsis appended by every truncation site. -/
def ellipsis : PyStr := "...".toList

/-- One step of the scanner for Python `re.findall(r'#\w+', text)`.
The accumulator state is `none` outside a candidate match and `some ws` inside
a candidate whose word characters so far are `ws` (reversed).  A candidate is
emitted once it has at least one word character, exactly as the regex matches
non-overlapping occurrences left to right. -/
def scanHashtags : List Char → Option (List Char) → List PyStr
  | [], none => []
  | [], some ws => if ws = [] then [] else ['#' :: ws.reverse]
  | c :: rest, none =>
      if c = '#' then scanHashtags rest (some [])
      else scanHashtags rest none
  | c :: rest, some ws =>
      if isWordChar c then scanHashtags rest (some (c :: ws))
      else if c = '#' then
        (if ws = [] then [] else ['#' :: ws.reverse]) ++ scanHashtags rest (some [])
      else
        (if ws = [] then [] else ['#' :: ws.reverse]) ++ scanHashtags rest none

/-- Python `re.findall(r'#\w+', text)`: the inline hashtags of `text`,
in order of occurrence. -/
def findHashtags (text : PyStr) : List PyStr :=
  scanHashtags text none

/-- Python `s.split()` on whitespace: maximal non-whitespace runs, empty runs
dropped.  The accumulator holds the current word reversed. -/
def splitWsAux : List Char → List Char → List PyStr
  | [], acc => if acc = [] then [] else [acc.reverse]
  | c :: rest, acc =>
      if isWsChar c then
        if acc = [] then splitWsAux rest [] else acc.reverse :: splitWsAux rest []
      else splitWsAux rest (c :: acc)

/-- Python `s.split()` (no separator argument). -/
def splitWs (s : PyStr) : List PyStr :=
  splitWsAux s []

/-- Python `" ".join(words)`. -/
def joinSpace (words : List PyStr) : PyStr :=
  List.intercalate [' '] words

/-- Python `caption.split('.')[0]`: the prefix of the caption before the first
period (the whole caption when no period occurs). -/
def firstSentence (caption : PyStr) : PyStr :=
  caption.takeWhile (fun c => c ≠ '.')

/-- The length-limit post-processing shared by both provider paths of
`TextGenerator` (src/utils/text_generator.py): when the generated text exceeds
`maxLen`, keep the Python slice `text[:maxLen - 3]` and append an ellipsis. -/
def shapeText (raw : PyStr) (maxLen : Nat) : PyStr :=
  if raw.length > maxLen then pySliceTo raw ((maxLen : Int) - 3) ++ ellipsis
  else raw

/-- A set-to-list enumeration modelling Python `list(set(xs))`: the result has
no duplicates and exactly the members of `xs`.  CPython enumerates a string set
in hash order, which is randomised per process, so the order is left abstract:
theorems quantify over every enumeration with these two properties. -/
def SetEnum (enum : List PyStr → List PyStr) : Prop :=
  ∀ l : List PyStr, (enum l).Nodup ∧ ∀ x, x ∈ enum l ↔ x ∈ l

/-- ContentTransformerAgent._extract_hashtags
(src/agents/content_transformer_agent.py, lines 121-141): inline hashtags of
the generated text are combined with a hash-prefixed copy of each original
hashtag that does not already start with a hash, the combination is passed
through a Python set, and the enumeration is cut off at the platform limit. -/
def extract_hashtags (enum : List PyStr → List PyStr)
    (text : PyStr) (original_hashtags : List PyStr) (limit : Nat) : List PyStr :=
  let text_hashtags := findHashtags text
  let all_hashtags :=
    enum (text_hashtags ++
      (original_hashtags.filter (fun t => ! startsWithHash t)).map (fun t => '#' :: t))
  all_hashtags.take limit

/-- PlatformProfile: the per-platform constraint set.  Mirrors one entry of
PLATFORM_CONFIGS in src/config.py. -/
structure PlatformProfile where
  maxTextLength : Nat
  maxHashtags : Nat
  videoMaxDuration : Nat
  videoMaxSize : Nat
deriving DecidableEq, Repr

/-- The twitter entry of PLATFORM_CONFIGS (src/config.py lines 73-79). -/
def twitterProfile : PlatformProfile :=
  { maxTextLength := 280, maxHashtags := 10
    videoMaxDuration := 140, videoMaxSize := 512 * 1024 * 1024 }

/-- The linkedin entry of PLATFORM_CONFIGS (src/config.py lines 80-86). -/
def linkedinProfile : PlatformProfile :=
  { maxTextLength := 3000, maxHashtags := 30
    videoMaxDuration := 600, videoMaxSize := 5 * 1024 * 1024 * 1024 }

/-- SourcePost: one extracted Instagram video post as the transformer receives
it (`video_data`): caption, engagement counters, hashtags, the video path and
an optional `video_info` record holding duration (seconds) and file size
(bytes).  Durations are modelled as naturals. -/
structure SourcePost where
  id : PyStr
  caption : PyStr
  hashtags : List PyStr
  likes : Nat
  comments : Nat
  videoPath : PyStr
  thumbnailUrl : Option PyStr
  videoInfo : Option (Nat × Nat)
deriving DecidableEq, Repr

/-- Media reference produced by the transformer: a video reference with its
measured duration and size, or an image fallback carrying a note. -/
inductive MediaOut where
  | video (path : PyStr) (duration : Nat) (size : Nat) (thumbnail : Option PyStr)
  | image (path : Option PyStr) (note : PyStr)
deriving DecidableEq, Repr

/-- Checks whether a media reference is a video reference. -/
def MediaOut.isVideo : MediaOut → Bool
  | .video _ _ _ _ => true
  | .image _ _ => false

/-- The note string of the image fallback
(src/agents/content_transformer_agent.py line 176). -/
def fallbackNote : PyStr := "Video too large/long for platform, using thumbnail".toList

/-- ContentTransformerAgent._prepare_media_for_platform
(src/agents/content_transformer_agent.py, lines 143-181): missing duration or
size default to 0; the video reference is kept only when duration and size are
both within the platform limits, otherwise the thumbnail is used as an
image-kind reference with a note. -/
def prepare_media (post : SourcePost) (profile : PlatformProfile) : MediaOut :=
  let duration := (post.videoInfo.map Prod.fst).getD 0
  let file_size := (post.videoInfo.map Prod.snd).getD 0
  if duration ≤ profile.videoMaxDuration ∧ file_size ≤ profile.videoMaxSize then
    .video post.videoPath duration file_size post.thumbnailUrl
  else
    .image post.thumbnailUrl fallbackNote

/-- AdaptedPost: the shaped platform payload handed to a publisher. -/
structure AdaptedPost where
  text : PyStr
  hashtags : List PyStr
  media : Option MediaOut
  sourceId : PyStr
deriving DecidableEq, Repr

/-- TwitterAgent._validate_content and LinkedInAgent._validate_content
(src/agents/twitter_agent.py lines 69-103, src/agents/linkedin_agent.py):
reject when the text is empty, when the text exceeds the platform length
limit, or when a video reference exceeds the platform duration limit.  Each
agent hardcodes its own platform constants, passed here as `maxLen`/`dmax`;
neither agent checks the video size. -/
def validate_content (maxLen dmax : Nat) (text : PyStr) (media : Option MediaOut) : Bool :=
  if text = [] then false
  else if text.length > maxLen then false
  else
    match media with
    | some (.video _ duration _ _) => if duration > dmax then false else true
    | _ => true

/-- Error value for a rejected payload (spec error taxonomy). -/
inductive ValidationError where
  | validationFailed
deriving DecidableEq, Repr

/-- The content-adaptation operation assembled from the repository pieces the
spec names: shape the raw candidate text with the TextGenerator length
post-processing, select hashtags with _extract_hashtags, select media with
_prepare_media_for_platform, and gate the result with _validate_content using
the profile thresholds. -/
def adapt (enum : List PyStr → List PyStr) (profile : PlatformProfile)
    (post : SourcePost) (raw_text : PyStr) : Except ValidationError AdaptedPost :=
  let text := shapeText raw_text profile.maxTextLength
  let hashtags := extract_hashtags enum text post.hashtags profile.maxHashtags
  let media := prepare_media post profile
  if validate_content profile.maxTextLength profile.videoMaxDuration text (some media) then
    .ok { text := text, hashtags := hashtags, media := some media, sourceId := post.id }
  else
    .error .validationFailed

/-- Groups the reversed decimal digits of a number into blocks of three,
inserting commas; the fuel argument bounds the recursion by the digit count. -/
def commaGroupAux : Nat → List Char → List Char
  | _, [] => []
  | 0, ds => ds
  | fuel + 1, ds => if ds.length ≤ 3 then ds else ds.take 3 ++ ',' :: commaGroupAux fuel (ds.drop 3)

/-- Python format `f"{n:,}"`: decimal digits with thousands separators. -/
def commaFormat (n : Nat) : PyStr :=
  let ds := Nat.toDigits 10 n
  (commaGroupAux ds.length ds.reverse).reverse

/-- AIContentTransformer._rule_based_transform (src/complete_pipeline.py,
lines 110-134): first sentence, at most 25 words joined by single spaces, an
engagement suffix for more than 1000 (flame and comma-formatted like count)
or more than 500 likes (rocket), two hashtags (the first two originals, or
two defaults when none), and a final 280-character cut. -/
def rule_based_transform (caption : PyStr) (likes : Nat) (comments : Nat)
    (hashtags : List PyStr) : PyStr :=
  let main_content := firstSentence caption
  let words := (splitWs main_content).take 25
  let t0 := joinSpace words
  let t1 :=
    if likes > 1000 then t0 ++ " 🔥 (".toList ++ commaFormat likes ++ " likes!)".toList
    else if likes > 500 then t0 ++ " 🚀".toList
    else t0
  let relevant := if hashtags = [] then ["#AI".toList, "#Innovation".toList] else hashtags.take 2
  let t2 := t1 ++ ' ' :: joinSpace relevant
  if t2.length > 280 then t2.take 277 ++ ellipsis else t2

/-- TwitterPublisher.optimize_for_twitter (src/specific_video_poster.py,
lines 176-190): first sentence, at most 35 words joined by single spaces, and
a 250-character cut leaving room for attribution.  The likes, comments and
hashtags arguments are accepted and ignored, as in the source. -/
def optimize_for_twitter (caption : PyStr) (likes : Nat) (comments : Nat)
    (hashtags : List PyStr) : PyStr :=
  let main_content := firstSentence caption
  let words := (splitWs main_content).take 35
  let content := joinSpace words
  if content.length > 250 then content.take 247 ++ ellipsis else content

/-- The apostrophe character, by code point. -/
def apos : Char := Char.ofNat 39

/-- The five fixed templates of TextGenerator._generate_fallback
(src/utils/text_generator.py lines 116-122); one is drawn by
`random.choice`. -/
def fallbackTemplates : List PyStr :=
  [ "Check out this amazing content! 🔥".toList
  , "Don".toList ++ apos :: "t miss this incredible video! ✨".toList
  , "This is absolutely mind-blowing! 🤯".toList
  , "You have to see this! 👀".toList
  , "This content is pure gold! ⭐".toList ]

/-- The fixed hashtags appended by TextGenerator._generate_fallback
(src/utils/text_generator.py line 128). -/
def fallbackHashtagList : List PyStr :=
  ["#viral".toList, "#amazing".toList, "#content".toList, "#video".toList, "#social".toList]

/-- The hashtag-appending loop of TextGenerator._generate_fallback
(src/utils/text_generator.py lines 129-133): append each hashtag with a
separating space while it still fits, stopping at the first that does not. -/
def addTags (maxLen : Nat) : PyStr → List PyStr → PyStr
  | base, [] => base
  | base, h :: rest =>
      if base.length + h.length + 1 ≤ maxLen then addTags maxLen (base ++ ' ' :: h) rest
      else base

/-- TextGenerator._generate_fallback (src/utils/text_generator.py,
lines 113-135): `choice` is the index drawn by `random.choice` over the five
templates; hashtags are appended while they fit.  The provider-path length
cut of `shapeText` is not applied on this path, matching `generate_text`. -/
def generate_fallback (choice : Fin 5) (maxLen : Nat) : PyStr :=
  addTags maxLen (fallbackTemplates.getD choice.val []) fallbackHashtagList

/-- The adaptation pipeline when the text provider is unavailable: the text
comes from the randomised template fallback (indexed by the draw `choice`)
instead of a provider candidate, then hashtag selection, media selection and
the validation gate run as in `adapt`. -/
def adaptWithFallback (choice : Fin 5) (enum : List PyStr → List PyStr)
    (profile : PlatformProfile) (post : SourcePost) : Except ValidationError AdaptedPost :=
  let text := generate_fallback choice profile.maxTextLength
  let hashtags := extract_hashtags enum text post.hashtags profile.maxHashtags
  let media := prepare_media post profile
  if validate_content profile.maxTextLength profile.videoMaxDuration text (some media) then
    .ok { text := text, hashtags := hashtags, media := some media, sourceId := post.id }
  else
    .error .validationFailed

/-- Projects the hashtags of an adaptation result. -/
def resultHashtags : Except ValidationError AdaptedPost → Option (List PyStr)
  | .ok p => some p.hashtags
  | .error _ => none

/-- Projects the media of an adaptation result. -/
def resultMedia : Except ValidationError AdaptedPost → Option (Option MediaOut)
  | .ok p => some p.media
  | .error _ => none

/-- Whether an adaptation result is an accepted payload. -/
def resultIsOk : Except ValidationError AdaptedPost → Bool
  | .ok _ => true
  | .error _ => false

/-- Outcome of one publisher call: a created remote post, a reported failure,
or a raised exception. -/
inductive PubOutcome where
  | ok (remoteId : PyStr)
  | err (msg : PyStr)
  | raised (msg : PyStr)
deriving DecidableEq, Repr

/-- Result dictionary returned by TwitterAgent.post_content for one post. -/
structure PostResult where
  success : Bool
  error : Option PyStr
deriving DecidableEq, Repr

/-- TwitterAgent.post_content (src/agents/twitter_agent.py, lines 29-67):
validate, then publish; a publisher exception is caught by the enclosing
handler and converted into a failure result, never propagated. -/
def post_content (pub : AdaptedPost → PubOutcome) (c : AdaptedPost) : PostResult :=
  if ! validate_content 280 140 c.text c.media then
    { success := false, error := some "Content validation failed".toList }
  else
    match pub c with
    | .ok _ => { success := true, error := none }
    | .err m => { success := false, error := some m }
    | .raised m => { success := false, error := some m }

/-- TwitterAgent.execute_posting (src/agents/twitter_agent.py, lines
195-218): posts sequentially (the inter-post sleep has no effect on the
results) and appends one result per input, whatever its outcome. -/
def execute_posting (pub : AdaptedPost → PubOutcome) (cs : List AdaptedPost) : List PostResult :=
  cs.map (post_content pub)

/-- Number of successful results in a posting result list. -/
def countSuccess (rs : List PostResult) : Nat :=
  rs.countP (fun r => r.success)

/-- ContentTransformerAgent.execute_transformation
(src/agents/content_transformer_agent.py, lines 212-234): `tf` is the
per-video transform_content call, whose catch-all handler returns the empty
dictionary on failure, modelled as `none`; only non-empty results are
appended to the output list. -/
def execute_transformation (tf : SourcePost → Option AdaptedPost)
    (videos : List SourcePost) : List AdaptedPost :=
  videos.filterMap tf

/-- The summary fields of OrchestratorAgent._generate_workflow_summary
(src/agents/orchestrator_agent.py, lines 204-226) for a single-platform run:
video and transformation totals, per-platform posting counts, and the number
of recorded workflow errors. -/
structure WorkflowSummary where
  totalVideos : Nat
  totalTransformations : Nat
  postingSuccessful : Nat
  postingTotal : Nat
  errorsCount : Nat
deriving DecidableEq, Repr

/-- OrchestratorAgent.execute_full_workflow
(src/agents/orchestrator_agent.py, lines 39-114) for one platform: stop with
one recorded error when extraction or transformation produces nothing;
otherwise post every transformed item and summarise. -/
def run_workflow (tf : SourcePost → Option AdaptedPost)
    (pub : AdaptedPost → PubOutcome) (videos : List SourcePost) : WorkflowSummary :=
  if videos = [] then
    { totalVideos := 0, totalTransformations := 0
      postingSuccessful := 0, postingTotal := 0, errorsCount := 1 }
  else
    let trs := execute_transformation tf videos
    if trs = [] then
      { totalVideos := videos.length, totalTransformations := 0
        postingSuccessful := 0, postingTotal := 0, errorsCount := 1 }
    else
      let posts := execute_posting pub trs
      { totalVideos := videos.length, totalTransformations := trs.length
        postingSuccessful := countSuccess posts, postingTotal := posts.length
        errorsCount := 0 }

/-- Modelled from the spec: step 1 of `adapt` as the spec words it, namely
truncation to `max_text_length - 3` characters cut back to a whitespace
boundary when one is available, then an appended ellipsis.  Used only to
compare the spec wording with the code truncation. -/
def specShapeText (raw : PyStr) (maxLen : Nat) : PyStr :=
  if raw.length > maxLen then
    let cand := raw.take (maxLen - 3)
    let r := cand.reverse.dropWhile (fun c => ¬ isWsChar c)
    let cut := if r = [] then cand else (r.dropWhile (fun c => isWsChar c)).reverse
    cut ++ ellipsis
  else raw

/-- First-seen deduplication keeping discovery order. -/
def dedupFirstAux (seen : List PyStr) : List PyStr → List PyStr
  | [] => []
  | x :: xs => if x ∈ seen then dedupFirstAux seen xs else x :: dedupFirstAux (x :: seen) xs

/-- Modelled from the spec: step 2 of `adapt` as the spec words it, namely
inline hashtags unioned in discovery order with every original hashtag
normalised to carry a leading hash, first-seen deduplication, then the limit
cut.  Used only to compare the spec wording with the code selection. -/
def specCombineHashtags (text : PyStr) (origs : List PyStr) (limit : Nat) : List PyStr :=
  (dedupFirstAux []
    (findHashtags text ++ origs.map (fun t => if startsWithHash t then t else '#' :: t))).take limit

/-- Modelled from the spec: the rejection condition of the validation gate as
the spec words it, including the video size bound.  Used only to compare the
spec wording with the code gate. -/
def specRejects (profile : PlatformProfile) (text : PyStr) (media : Option MediaOut) : Bool :=
  text = [] || text.length > profile.maxTextLength ||
    (match media with
     | some (.video _ d s _) => d > profile.videoMaxDuration || s > profile.videoMaxSize
     | _ => false)

/-- Decidable equality of adaptation results, needed to evaluate concrete
runs of `adapt` inside proofs. -/
instance {ε α : Type} [DecidableEq ε] [DecidableEq α] : DecidableEq (Except ε α) :=
  fun a b =>
    match a, b with
    | .error e, .error f =>
        if h : e = f then isTrue (h ▸ rfl) else isFalse (fun hc => h (Except.error.inj hc))
    | .ok x, .ok y =>
        if h : x = y then isTrue (h ▸ rfl) else isFalse (fun hc => h (Except.ok.inj hc))
    | .error _, .ok _ => isFalse (fun hc => Except.noConfusion hc)
    | .ok _, .error _ => isFalse (fun hc => Except.noConfusion hc)

/-- A two-character source post used to instantiate universally quantified
results on concrete inputs. -/
def post0 : SourcePost :=
  { id := "p0".toList, caption := "hi".toList, hashtags := [], likes := 0, comments := 0
    videoPath := "v.mp4".toList, thumbnailUrl := none, videoInfo := none }

/-- The payload `adapt` produces from `post0` and the raw text "hello" under
the twitter profile. -/
def payload0 : AdaptedPost :=
  { text := "hello".toList, hashtags := []
    media := some (.video "v.mp4".toList 0 0 none), sourceId := "p0".toList }

/-- A source post whose video runs exactly one second over the twitter
duration limit. -/
def postOver : SourcePost :=
  { id := "p1".toList, caption := "hi".toList, hashtags := [], likes := 0, comments := 0
    videoPath := "v.mp4".toList, thumbnailUrl := none, videoInfo := some (141, 0) }

/-- The payload `adapt` produces from `postOver` and the raw text "hi" under
the twitter profile: the media is degraded to the image fallback. -/
def payloadOver : AdaptedPost :=
  { text := "hi".toList, hashtags := []
    media := some (.image none fallbackNote), sourceId := "p1".toList }

/-- First post of the three-post batch scenario. -/
def batchPost1 : AdaptedPost :=
  { text := "one".toList, hashtags := [], media := none, sourceId := "b1".toList }

/-- Second post of the three-post batch scenario; the publisher raises on it. -/
def batchPost2 : AdaptedPost :=
  { text := "two".toList, hashtags := [], media := none, sourceId := "b2".toList }

/-- Third post of the three-post batch scenario. -/
def batchPost3 : AdaptedPost :=
  { text := "three".toList, hashtags := [], media := none, sourceId := "b3".toList }

/-- Publisher of the batch scenario: raises an exception on the second post
and succeeds on every other. -/
def pubScenario : AdaptedPost → PubOutcome :=
  fun c => if c = batchPost2 then .raised "boom".toList else .ok "id1".toList

/-- First extracted video of the workflow scenario; its transformation
succeeds. -/
def srcA : SourcePost :=
  { id := "a".toList, caption := "hi".toList, hashtags := [], likes := 0, comments := 0
    videoPath := "a.mp4".toList, thumbnailUrl := none, videoInfo := none }

/-- Second extracted video of the workflow scenario; its transformation
fails. -/
def srcB : SourcePost :=
  { id := "b".toList, caption := "yo".toList, hashtags := [], likes := 0, comments := 0
    videoPath := "b.mp4".toList, thumbnailUrl := none, videoInfo := none }

/-- The payload the scenario transform produces for srcA. -/
def payloadA : AdaptedPost :=
  { text := "ok post".toList, hashtags := [], media := none, sourceId := "a".toList }

/-- Scenario transform: succeeds on srcA, fails (empty dictionary from the
catch-all handler) on every other video. -/
def tfEx : SourcePost → Option AdaptedPost :=
  fun v => if v = srcA then some payloadA else none

/-- Scenario publisher that always succeeds. -/
def pubOk : AdaptedPost → PubOutcome :=
  fun _ => .ok "rid".toList

end SocialAgent

namespace SocialAgent

/-- List.dedup is one valid enumeration of a Python set: it has no duplicate
and keeps exactly the members. -/
theorem setEnum_dedup : SetEnum List.dedup := by
  intro l
  exact ⟨l.nodup_dedup, fun x => List.mem_dedup⟩

/-- Characterisation of the agents' validation gate: it reports failure
exactly for an empty text, an over-long text, or a video reference whose
duration exceeds the platform limit.  The video size is not consulted. -/
theorem validate_content_false_iff (maxLen dmax : Nat) (text : PyStr)
    (media : Option MediaOut) :
    validate_content maxLen dmax text media = false ↔
      (text = [] ∨ text.length > maxLen ∨
        ∃ p d s th, media = some (.video p d s th) ∧ d > dmax) := by
  unfold validate_content
  by_cases h1 : text = []
  · simp [h1]
  · rw [if_neg h1]
    by_cases h2 : text.length > maxLen
    · simp [h1, h2]
    · rw [if_neg h2]
      rcases media with _ | (⟨p, d, s, th⟩ | ⟨p, n⟩)
      · simp [h1, h2]
      · by_cases h3 : d > dmax
        · simp only [if_pos h3]
          constructor
          · intro _
            exact Or.inr (Or.inr ⟨p, d, s, th, rfl, h3⟩)
          · intro _
            trivial
        · simp only [if_neg h3]
          constructor
          · intro h
            cases h
          · rintro (h | h | ⟨p2, d2, s2, th2, hm, hd⟩)
            · exact absurd h h1
            · exact absurd h h2
            · injection hm with hm
              injection hm with e1 e2 e3 e4
              subst e2
              exact absurd hd h3
      · simp [h1, h2]

/-- A text accepted by the gate is within the platform length bound. -/
theorem validate_content_true_length {maxLen dmax : Nat} {text : PyStr}
    {media : Option MediaOut}
    (h : validate_content maxLen dmax text media = true) : text.length ≤ maxLen := by
  by_contra hlt
  have hfalse := (validate_content_false_iff maxLen dmax text media).2
    (Or.inr (Or.inl (by omega)))
  rw [h] at hfalse
  cases hfalse

/-- Hashtag selection never returns more than the platform limit. -/
theorem extract_hashtags_length_le (enum : List PyStr → List PyStr)
    (text : PyStr) (origs : List PyStr) (limit : Nat) :
    (extract_hashtags enum text origs limit).length ≤ limit := by
  unfold extract_hashtags
  simp only []
  exact List.length_take_le _ _

/-- Every selected hashtag comes from the combined pool: inline hashtags of
the text plus hash-prefixed copies of the originals lacking the prefix. -/
theorem extract_hashtags_mem_source {enum : List PyStr → List PyStr}
    (he : SetEnum enum) {text : PyStr} {origs : List PyStr} {limit : Nat} {x : PyStr}
    (hx : x ∈ extract_hashtags enum text origs limit) :
    x ∈ findHashtags text ++
      (origs.filter (fun t => ! startsWithHash t)).map (fun t => '#' :: t) := by
  unfold extract_hashtags at hx
  exact ((he _).2 x).1 (List.mem_of_mem_take hx)

/-- A duplicate-free list whose members are exactly one value is the
singleton list of that value. -/
theorem nodup_mem_singleton {l : List PyStr} {a : PyStr}
    (hn : l.Nodup) (hm : ∀ y, y ∈ l ↔ y = a) : l = [a] := by
  cases l with
  | nil => cases (hm a).2 rfl
  | cons b t =>
    have hb : b = a := (hm b).1 (List.mem_cons_self _ _)
    subst hb
    cases t with
    | nil => rfl
    | cons c u =>
      have hc : c = b := ((hm c).1 (List.mem_cons_of_mem _ (List.mem_cons_self _ _))).symm ▸ rfl
      have hc2 : c = b := (hm c).1 (List.mem_cons_of_mem _ (List.mem_cons_self _ _))
      subst hc2
      simp at hn

/-- The filterMap kept by execute_transformation counts exactly the
successfully transformed inputs. -/
theorem length_filterMap_eq_countP (tf : SourcePost → Option AdaptedPost)
    (videos : List SourcePost) :
    (videos.filterMap tf).length = videos.countP (fun v => (tf v).isSome) := by
  induction videos with
  | nil => rfl
  | cons v vs ih =>
    cases h : tf v <;> simp [List.filterMap_cons, h, List.countP_cons, ih]

/-- C1: for every source post, platform profile and raw candidate text, the
adapt operation either returns ValidationFailed or an AdaptedPost whose text
length is at most the profile's max_text_length and whose hashtag count is at
most the profile's max_hashtags; it never returns a payload exceeding either
bound. -/
theorem C1_adapt_within_bounds (enum : List PyStr → List PyStr)
    (profile : PlatformProfile) (post : SourcePost) (raw : PyStr)
    (payload : AdaptedPost)
    (h : adapt enum profile post raw = .ok payload) :
    payload.text.length ≤ profile.maxTextLength ∧
    payload.hashtags.length ≤ profile.maxHashtags := by
  simp only [adapt] at h
  split at h
  case isTrue hv =>
    injection h with h
    subst h
    exact ⟨validate_content_true_length hv, extract_hashtags_length_le _ _ _ _⟩
  case isFalse hv => cases h

/-- Witness for C1 at a concrete accepted input. -/
theorem C1_witness :
    payload0.text.length ≤ twitterProfile.maxTextLength ∧
    payload0.hashtags.length ≤ twitterProfile.maxHashtags :=
  C1_adapt_within_bounds List.dedup twitterProfile post0 "hello".toList payload0 (by decide)

/-- C2 counterexample: on "hello worlds" with a length budget of 10 the code
truncation cuts mid-word to "hello w...", although a whitespace boundary was
available inside the budget; the spec-worded whitespace-boundary truncation
would produce "hello...". -/
theorem C2_counterexample :
    shapeText "hello worlds".toList 10 = "hello w...".toList ∧
    specShapeText "hello worlds".toList 10 = "hello...".toList ∧
    shapeText "hello worlds".toList 10 ≠ specShapeText "hello worlds".toList 10 := by
  decide

/-- C2 (amended): text shaping truncates an over-long text to the plain
character prefix of max_text_length - 3 characters, with no whitespace-boundary
search, and appends an ellipsis; whenever max_text_length is at least 3 the
final text has length exactly max_text_length. -/
theorem C2_plain_slice_truncation (raw : PyStr) (maxLen : Nat)
    (h3 : 3 ≤ maxLen) (hlong : raw.length > maxLen) :
    shapeText raw maxLen = raw.take (maxLen - 3) ++ ellipsis ∧
    (shapeText raw maxLen).length = maxLen := by
  have hcast : ((maxLen : Int) - 3) = ((maxLen - 3 : Nat) : Int) := by omega
  have hshape : shapeText raw maxLen = raw.take (maxLen - 3) ++ ellipsis := by
    unfold shapeText pySliceTo
    rw [if_pos hlong, if_pos (by omega : (0 : Int) ≤ (maxLen : Int) - 3), hcast]
    simp
  refine ⟨hshape, ?_⟩
  rw [hshape]
  have htake : (raw.take (maxLen - 3)).length = maxLen - 3 := by
    rw [List.length_take]
    omega
  have hell : ellipsis.length = 3 := by decide
  rw [List.length_append, htake, hell]
  omega

/-- Witness for C2 on the spec scenario: 300 characters cut to the 280
budget give a 280-character text ending in the ellipsis. -/
theorem C2_witness :
    shapeText (List.replicate 300 'a') 280 =
      (List.replicate 300 'a').take 277 ++ ellipsis ∧
    (shapeText (List.replicate 300 'a') 280).length = 280 :=
  C2_plain_slice_truncation (List.replicate 300 'a') 280 (by decide) (by decide)

/-- C3 counterexample: an original hashtag already carrying the hash prefix
is dropped by the code, while the spec-worded selection normalises and keeps
it: with no inline hashtags and the single original "#X" the code returns no
hashtag at all. -/
theorem C3_counterexample :
    extract_hashtags List.dedup "hello".toList ["#X".toList] 5 = [] ∧
    specCombineHashtags "hello".toList ["#X".toList] 5 = ["#X".toList] ∧
    extract_hashtags List.dedup "hello".toList ["#X".toList] 5 ≠
      specCombineHashtags "hello".toList ["#X".toList] 5 := by
  decide

/-- C3 (amended): hashtag selection returns the inline hashtags of the text
unioned with the hash-prefixed copies of only those originals that lack the
prefix, deduplicated case-sensitively in an unspecified set-enumeration
order (not necessarily first-seen order), truncated to the platform limit;
in the "#AI #AI" / ["AI"] scenario the output is exactly ["#AI"], containing
"#AI" once. -/
theorem C3_hashtag_selection (enum : List PyStr → List PyStr) (he : SetEnum enum)
    (text : PyStr) (origs : List PyStr) (limit : Nat) :
    (extract_hashtags enum text origs limit).length ≤ limit ∧
    (extract_hashtags enum text origs limit).Nodup ∧
    (∀ x, x ∈ extract_hashtags enum text origs limit →
        x ∈ findHashtags text ∨
        x ∈ (origs.filter (fun t => ! startsWithHash t)).map (fun t => '#' :: t)) ∧
    (1 ≤ limit →
      extract_hashtags enum "see #AI #AI now".toList ["AI".toList] limit = ["#AI".toList]) := by
  refine ⟨extract_hashtags_length_le _ _ _ _, ?_, ?_, ?_⟩
  · unfold extract_hashtags
    exact List.Nodup.sublist (List.take_sublist _ _) (he _).1
  · intro x hx
    exact List.mem_append.mp (extract_hashtags_mem_source he hx)
  · intro hlim
    simp only [extract_hashtags]
    have hcomb : findHashtags "see #AI #AI now".toList ++
        ((["AI".toList]).filter (fun t => ! startsWithHash t)).map (fun t => '#' :: t) =
        ["#AI".toList, "#AI".toList, "#AI".toList] := by decide
    rw [hcomb]
    have henum : enum ["#AI".toList, "#AI".toList, "#AI".toList] = ["#AI".toList] := by
      apply nodup_mem_singleton (he _).1
      intro y
      rw [(he _).2 y]
      simp
    rw [henum]
    cases limit with
    | zero => omega
    | succ n => simp

/-- Witness for C3 instantiating the set enumeration with List.dedup on the
dedup scenario. -/
theorem C3_witness :
    extract_hashtags List.dedup "see #AI #AI now".toList ["AI".toList] 2 = ["#AI".toList] :=
  (C3_hashtag_selection List.dedup setEnum_dedup "x".toList [] 2).2.2.2 (by decide)

/-- C4: a source video exceeding either of the platform's media limits is
never adapted as video media: the payload carries the image-kind thumbnail
reference with the human-readable note instead. -/
theorem C4_oversize_video_degraded (enum : List PyStr → List PyStr)
    (profile : PlatformProfile) (post : SourcePost) (raw : PyStr)
    (payload : AdaptedPost) (d s : Nat)
    (hinfo : post.videoInfo = some (d, s))
    (hover : d > profile.videoMaxDuration ∨ s > profile.videoMaxSize)
    (h : adapt enum profile post raw = .ok payload) :
    payload.media = some (.image post.thumbnailUrl fallbackNote) ∧
    Option.all (fun m => ! m.isVideo) payload.media = true := by
  have hmedia : prepare_media post profile = .image post.thumbnailUrl fallbackNote := by
    unfold prepare_media
    rw [hinfo]
    rw [if_neg (by rintro ⟨hd, hs⟩; rcases hover with h1 | h1 <;> simp_all <;> omega)]
  simp only [adapt] at h
  split at h
  case isTrue hv =>
    injection h with h
    subst h
    simp [hmedia, MediaOut.isVideo, Option.all]
  case isFalse hv => cases h

/-- Witness for C4 at a video exactly one second over the twitter duration
limit. -/
theorem C4_witness :
    payloadOver.media = some (.image postOver.thumbnailUrl fallbackNote) ∧
    Option.all (fun m => ! m.isVideo) payloadOver.media = true :=
  C4_oversize_video_degraded List.dedup twitterProfile postOver "hi".toList payloadOver
    141 0 (by decide) (Or.inl (by decide)) (by decide)

/-- C5 counterexample: a shaped post holding a ten-second video of 600 MiB is
accepted by the gate although its size exceeds the 512 MiB twitter limit, so
the claimed rejection condition (which includes the size bound) does not
characterise the gate. -/
theorem C5_counterexample :
    validate_content 280 140 "hi".toList
      (some (.video "v".toList 10 (600 * 1024 * 1024) none)) = true ∧
    specRejects twitterProfile "hi".toList
      (some (.video "v".toList 10 (600 * 1024 * 1024) none)) = true := by
  decide

/-- C5 (amended): the post-shaping gate rejects a shaped post if and only if
the text is empty, or the text exceeds the platform length limit, or the
media is a video whose duration exceeds the platform duration limit; the
video size is not re-checked by the gate. -/
theorem C5_gate_characterisation (maxLen dmax : Nat) (text : PyStr)
    (media : Option MediaOut) :
    validate_content maxLen dmax text media = false ↔
      (text = [] ∨ text.length > maxLen ∨
        ∃ p d s th, media = some (.video p d s th) ∧ d > dmax) :=
  validate_content_false_iff maxLen dmax text media

/-- C10 counterexample: the hash-prefixed original "#X" reaches the output
even though the text has no inline hashtag at all, because the distinct
unprefixed original "X" is normalised to the same token; so a prefixed
original can appear without occurring inline. -/
theorem C10_counterexample :
    extract_hashtags List.dedup "hello".toList ["#X".toList, "X".toList] 5 =
      ["#X".toList] ∧
    startsWithHash "#X".toList = true ∧
    findHashtags "hello".toList = [] := by
  decide

/-- C10 (amended): originals already starting with the hash are excluded from
the combination; every output hashtag is an inline hashtag of the text or the
hash-prefixed copy of an original lacking the prefix, so a prefixed original
reaches the output only as an inline token or as the normalised copy of an
unprefixed original. -/
theorem C10_output_membership (enum : List PyStr → List PyStr) (he : SetEnum enum)
    (text : PyStr) (origs : List PyStr) (limit : Nat) (tag : PyStr)
    (hmem : tag ∈ extract_hashtags enum text origs limit) :
    tag ∈ findHashtags text ∨
      tag ∈ (origs.filter (fun t => ! startsWithHash t)).map (fun t => '#' :: t) :=
  List.mem_append.mp (extract_hashtags_mem_source he hmem)

/-- Witness for C10 at a concrete inline hashtag. -/
theorem C10_witness :
    "#Y".toList ∈ findHashtags "a #Y b".toList ∨
      "#Y".toList ∈ ((["#Y".toList, "Z".toList]).filter
        (fun t => ! startsWithHash t)).map (fun t => '#' :: t) :=
  C10_output_membership List.dedup setEnum_dedup "a #Y b".toList
    ["#Y".toList, "Z".toList] 5 "#Y".toList (by decide)

/-- C6 counterexample: the caption "." is non-empty, yet optimize_for_twitter
returns the empty string for it, since the first period-separated segment has
no words and nothing is ever appended on that path. -/
theorem C6_counterexample :
    ".".toList ≠ ([] : PyStr) ∧ optimize_for_twitter ".".toList 100 0 [] = [] := by
  decide

/-- The final 280-character cut preserves non-emptiness. -/
theorem final_cut_ne_nil (l : PyStr) (h : l ≠ []) :
    (if l.length > 280 then l.take 277 ++ ellipsis else l) ≠ [] := by
  split
  · simp [ellipsis]
  · exact h

/-- C6 (amended): the rule-based fallback transform is total by construction
and returns a non-empty string for every input, empty captions included,
because it always appends a space and a hashtag segment; the
optimize_for_twitter variant, by contrast, can return an empty string for a
non-empty caption. -/
theorem C6_rule_based_nonempty (caption : PyStr) (likes comments : Nat)
    (hashtags : List PyStr) :
    rule_based_transform caption likes comments hashtags ≠ [] := by
  unfold rule_based_transform
  apply final_cut_ne_nil
  simp

/-- The gate result does not depend on the text once the text is non-empty
and within the length bound. -/
theorem validate_content_text_irrelevant (maxLen dmax : Nat) (t1 t2 : PyStr)
    (md : Option MediaOut)
    (h1 : t1 ≠ []) (h2 : ¬ t1.length > maxLen)
    (h3 : t2 ≠ []) (h4 : ¬ t2.length > maxLen) :
    validate_content maxLen dmax t1 md = validate_content maxLen dmax t2 md := by
  unfold validate_content
  rw [if_neg h1, if_neg h2, if_neg h3, if_neg h4]

/-- C7 counterexample: two runs of the fallback adaptation path on identical
inputs but different random template draws produce different AdaptedPost
values, so the path is not a function of the three declared inputs alone. -/
theorem C7_counterexample :
    adaptWithFallback (0 : Fin 5) List.dedup twitterProfile post0 ≠
      adaptWithFallback (1 : Fin 5) List.dedup twitterProfile post0 := by
  decide

/-- C7 (amended): the adapt pipeline is a pure function of post, profile and
raw text, but the fallback text path draws a random template; the draw
affects only the text of the result: for any two draws under the twitter
profile, the hashtags, the media and the acceptance outcome coincide. -/
theorem C7_draw_affects_only_text (c1 c2 : Fin 5) (enum : List PyStr → List PyStr)
    (post : SourcePost) :
    resultHashtags (adaptWithFallback c1 enum twitterProfile post) =
      resultHashtags (adaptWithFallback c2 enum twitterProfile post) ∧
    resultMedia (adaptWithFallback c1 enum twitterProfile post) =
      resultMedia (adaptWithFallback c2 enum twitterProfile post) ∧
    resultIsOk (adaptWithFallback c1 enum twitterProfile post) =
      resultIsOk (adaptWithFallback c2 enum twitterProfile post) := by
  have htags : ∀ c : Fin 5, findHashtags (generate_fallback c 280) = fallbackHashtagList := by
    decide
  have hlen : ∀ c : Fin 5, (generate_fallback c 280).length ≤ 280 := by decide
  have hne : ∀ c : Fin 5, generate_fallback c 280 ≠ [] := by decide
  have hgate := validate_content_text_irrelevant twitterProfile.maxTextLength
    twitterProfile.videoMaxDuration
    (generate_fallback c1 twitterProfile.maxTextLength)
    (generate_fallback c2 twitterProfile.maxTextLength)
    (some (prepare_media post twitterProfile))
    (hne c1) (show ¬ (generate_fallback c1 280).length > 280 by have := hlen c1; omega)
    (hne c2) (show ¬ (generate_fallback c2 280).length > 280 by have := hlen c2; omega)
  have hex : extract_hashtags enum (generate_fallback c1 twitterProfile.maxTextLength)
      post.hashtags twitterProfile.maxHashtags =
      extract_hashtags enum (generate_fallback c2 twitterProfile.maxTextLength)
      post.hashtags twitterProfile.maxHashtags := by
    simp only [extract_hashtags]
    rw [show findHashtags (generate_fallback c1 twitterProfile.maxTextLength) =
          fallbackHashtagList from htags c1,
        show findHashtags (generate_fallback c2 twitterProfile.maxTextLength) =
          fallbackHashtagList from htags c2]
  simp only [adaptWithFallback]
  rw [hgate, hex]
  cases hv : validate_content twitterProfile.maxTextLength twitterProfile.videoMaxDuration
      (generate_fallback c2 twitterProfile.maxTextLength)
      (some (prepare_media post twitterProfile)) <;>
    simp [hv, resultHashtags, resultMedia, resultIsOk]

/-- C8: batch publishing returns one result per input post, each depending
only on its own post, so a failure (including a raised publisher exception)
never aborts the batch; in the three-post scenario where the publisher raises
on the second post, the batch reports two successes and one failure and the
third post is still published. -/
theorem C8_batch_isolation (pub : AdaptedPost → PubOutcome) (cs : List AdaptedPost) :
    (execute_posting pub cs).length = cs.length ∧
    (∀ i : Nat, (execute_posting pub cs)[i]? = (cs[i]?).map (post_content pub)) ∧
    countSuccess (execute_posting pubScenario [batchPost1, batchPost2, batchPost3]) = 2 ∧
    (execute_posting pubScenario [batchPost1, batchPost2, batchPost3]).length = 3 ∧
    (execute_posting pubScenario [batchPost1, batchPost2, batchPost3])[1]? =
      some { success := false, error := some "boom".toList } ∧
    (execute_posting pubScenario [batchPost1, batchPost2, batchPost3])[2]? =
      some { success := true, error := none } := by
  refine ⟨by simp [execute_posting], ?_, by decide, by decide, by decide, by decide⟩
  intro i
  simp [execute_posting]

/-- C9 counterexample: in a two-video run where the second video's
transformation fails, the summary counts one transformation, one posting
attempt, one success and zero errors; the failed video is absent from every
count and from the error record, so fewer items are accounted for than were
put in. -/
theorem C9_counterexample :
    run_workflow tfEx pubOk [srcA, srcB] =
      { totalVideos := 2, totalTransformations := 1, postingSuccessful := 1
        postingTotal := 1, errorsCount := 0 } ∧
    (run_workflow tfEx pubOk [srcA, srcB]).postingTotal +
      (run_workflow tfEx pubOk [srcA, srcB]).errorsCount < [srcA, srcB].length := by
  decide

/-- C9 (amended): publish failures are recorded per item, but items whose
transformation fails are silently dropped: in any run where at least one
transformation succeeds, only the successfully transformed items are counted
in the transformation and posting totals, and no workflow error is recorded
for the dropped items. -/
theorem C9_transform_failures_dropped (tf : SourcePost → Option AdaptedPost)
    (pub : AdaptedPost → PubOutcome) (videos : List SourcePost)
    (h : execute_transformation tf videos ≠ []) :
    (run_workflow tf pub videos).totalTransformations =
      videos.countP (fun v => (tf v).isSome) ∧
    (run_workflow tf pub videos).postingTotal =
      videos.countP (fun v => (tf v).isSome) ∧
    (run_workflow tf pub videos).errorsCount = 0 := by
  have hvne : videos ≠ [] := by
    intro hv
    apply h
    rw [hv]
    rfl
  simp only [run_workflow]
  rw [if_neg hvne, if_neg h]
  refine ⟨length_filterMap_eq_countP tf videos, ?_, rfl⟩
  show (execute_posting pub (execute_transformation tf videos)).length = _
  rw [show (execute_posting pub (execute_transformation tf videos)).length =
    (execute_transformation tf videos).length from by simp [execute_posting]]
  exact length_filterMap_eq_countP tf videos

/-- Witness for C9 on the two-video scenario. -/
theorem C9_witness :
    (run_workflow tfEx pubOk [srcA, srcB]).totalTransformations =
      [srcA, srcB].countP (fun v => (tfEx v).isSome) ∧
    (run_workflow tfEx pubOk [srcA, srcB]).postingTotal =
      [srcA, srcB].countP (fun v => (tfEx v).isSome) ∧
    (run_workflow tfEx pubOk [srcA, srcB]).errorsCount = 0 :=
  C9_transform_failures_dropped tfEx pubOk [srcA, srcB] (by decide)

end SocialAgent
